import Mathlib

/-!
Verification of the LeafletImporter CORS-relay workers (`web/worker.js`, v1
and the v2 revision) and of the spec-level Identity Deriver, as a shallow
embedding in Lean.  String operations of the JavaScript runtime
(`endsWith`, `startsWith`, `includes`, `toLowerCase`, truthiness of `||`)
are modelled over `String.data` character lists; the worker's `fetch`
handler is a pure function of the inbound request, the URL parser and the
upstream-fetch oracle, returning the produced response together with the
list of upstream requests it issued.
-/

namespace Relay

/-! ## JavaScript string primitives -/

/-- Model of JavaScript `s.endsWith(pat)`. -/
def strEndsWith (s pat : String) : Bool := pat.data.isSuffixOf s.data

/-- Model of JavaScript `s.startsWith(pat)`. -/
def strStartsWith (s pat : String) : Bool := pat.data.isPrefixOf s.data

/-- Character-list substring search used to model `s.includes(pat)` and
regex substring matching. -/
def chContains (pat : List Char) : List Char → Bool
  | [] => pat.isPrefixOf []
  | c :: cs => pat.isPrefixOf (c :: cs) || chContains pat cs

/-- Model of JavaScript `s.includes(pat)`. -/
def strContains (s pat : String) : Bool := chContains pat.data s.data

/-- Model of JavaScript `s.toLowerCase()` (ASCII range is all the worker
needs). -/
def strToLower (s : String) : String := ⟨s.data.map Char.toLower⟩

/-- JavaScript `x || d` on a nullable string `x`: both `null` and the empty
string (the two falsy cases) select the default. -/
def jsOrDefault (x : Option String) (d : String) : String :=
  match x with
  | none => d
  | some s => if s = "" then d else s

/-! ## HTTP data model -/

/-- Inbound request as the worker observes it: the method, the pathname of
`new URL(request.url)`, the `url` query parameter
(`url.searchParams.get('url')`, `none` when absent), and the inbound
headers (which also stand for any cookies / credential material the caller
attached).  The workers never read the inbound headers. -/
structure Request where
  method : String
  path : String
  urlParam : Option String
  headers : List (String × String)
deriving Repr, DecidableEq

/-- Result of `new URL(targetUrl)` when parsing succeeds: the components
the workers inspect. -/
structure TargetURL where
  hostname : String
  pathname : String
deriving Repr, DecidableEq

/-- An upstream request issued by `fetch(targetUrl, {headers})`. -/
structure UpstreamRequest where
  url : String
  headers : List (String × String)
deriving Repr, DecidableEq

/-- An upstream response: status, the `Content-Type` header as returned by
`response.headers.get('Content-Type')` (`none` models `null`), and the
body bytes (served to the worker by `response.text()` or
`response.arrayBuffer()`). -/
structure UpstreamResp where
  status : Nat
  contentType : Option String
  body : String
deriving Repr, DecidableEq

/-- JavaScript `response.ok`: status in the inclusive range 200–299. -/
def UpstreamResp.ok (r : UpstreamResp) : Bool := 200 ≤ r.status && r.status ≤ 299

/-- Outcome of `await fetch(...)`: a response, or a thrown exception with
its `error.message`. -/
inductive FetchOutcome where
  | resp (r : UpstreamResp)
  | threw (msg : String)
deriving Repr, DecidableEq

/-- A response produced by the worker (`new Response(body, init)`); the
header list is in the source's literal order.  `new Response` with no
status defaults to 200, and a `null` body is modelled as `""`. -/
structure WResponse where
  status : Nat
  body : String
  headers : List (String × String)
deriving Repr, DecidableEq

/-- Header lookup on a produced response. -/
def headerGet (hs : List (String × String)) (k : String) : Option String :=
  (hs.find? (fun kv => kv.1 = k)).map (fun kv => kv.2)

/-! ## Shared response fragments (verbatim from both workers) -/

/-- The CORS-preflight response of the `OPTIONS` branch. -/
def preflightResponse : WResponse :=
  { status := 200
    body := ""
    headers := [("Access-Control-Allow-Origin", "*"),
                ("Access-Control-Allow-Methods", "GET, OPTIONS"),
                ("Access-Control-Allow-Headers", "Content-Type"),
                ("Access-Control-Max-Age", "86400")] }

/-- Headers attached to every JSON error body (and the version endpoint):
content type plus the permissive CORS header. -/
def corsJsonHeaders : List (String × String) :=
  [("Content-Type", "application/json"),
   ("Access-Control-Allow-Origin", "*")]

/-- `JSON.stringify({error: msg})`. -/
def jsonError (msg : String) : String :=
  "\x7b\"error\":\"" ++ msg ++ "\"\x7d"

/-- `JSON.stringify({error: 'Tumblr returned S', status: S})` for the
upstream non-ok branch. -/
def upstreamErrBody (s : Nat) : String :=
  "\x7b\"error\":\"Tumblr returned " ++ toString s ++ "\",\"status\":" ++ toString s ++ "\x7d"

/-- `JSON.stringify({error: 'Failed to fetch from Tumblr', details: msg})`
for the catch branch. -/
def fetchFailBody (msg : String) : String :=
  "\x7b\"error\":\"Failed to fetch from Tumblr\",\"details\":\"" ++ msg ++ "\"\x7d"

/-- The fixed `User-Agent` value both workers send upstream. -/
def relayUserAgent : String := "TumblrToLeaflet/1.0"

/-- The RSS/XML `Accept` value (v1 always; v2 for non-image requests). -/
def xmlAccept : String := "application/rss+xml, application/xml, text/xml, */*"

/-- The image `Accept` value of the v2 worker. -/
def imageAccept : String := "image/webp,image/png,image/jpeg,image/gif,*/*"

/-- The complete upstream header list of the v1 worker. -/
def v1UpstreamHeaders : List (String × String) :=
  [("User-Agent", relayUserAgent), ("Accept", xmlAccept)]

/-- The complete upstream header list of the v2 worker, chosen by the
image classification. -/
def v2UpstreamHeaders (isImage : Bool) : List (String × String) :=
  [("User-Agent", relayUserAgent),
   ("Accept", if isImage then imageAccept else xmlAccept)]

/-! ## The v1 worker (`web/worker.js`) -/

/-- The v1 allow-list condition: `parsedTarget.hostname.endsWith('.tumblr.com')`. -/
def isAllowedV1 (hostname : String) : Bool := strEndsWith hostname ".tumblr.com"

/-- The v1 worker's `fetch` handler.  `parse` models `new URL` on the
target string (`none` when the constructor throws); `fetchFn` models the
upstream network.  Returns the response together with the list of upstream
requests issued while handling the request.  The source's
`if (!targetUrl)` test is true both when the parameter is absent (`null`)
and when it is the empty string (falsy), so both take the
missing-parameter branch. -/
def workerV1 (parse : String → Option TargetURL)
    (fetchFn : UpstreamRequest → FetchOutcome)
    (req : Request) : WResponse × List UpstreamRequest :=
  if req.method = "OPTIONS" then
    (preflightResponse, [])
  else if req.method ≠ "GET" then
    ({ status := 405, body := "Method not allowed", headers := [] }, [])
  else
    match req.urlParam with
    | none =>
      ({ status := 400, body := jsonError "Missing url parameter",
         headers := corsJsonHeaders }, [])
    | some targetUrl =>
      if targetUrl = "" then
        ({ status := 400, body := jsonError "Missing url parameter",
           headers := corsJsonHeaders }, [])
      else
      match parse targetUrl with
      | none =>
        ({ status := 400, body := jsonError "Invalid URL",
           headers := corsJsonHeaders }, [])
      | some parsedTarget =>
        if !isAllowedV1 parsedTarget.hostname then
          ({ status := 403, body := jsonError "Only tumblr.com domains allowed",
             headers := corsJsonHeaders }, [])
        else
          let ureq : UpstreamRequest := { url := targetUrl, headers := v1UpstreamHeaders }
          match fetchFn ureq with
          | .threw msg =>
            ({ status := 500, body := fetchFailBody msg,
               headers := corsJsonHeaders }, [ureq])
          | .resp r =>
            if !r.ok then
              ({ status := r.status, body := upstreamErrBody r.status,
                 headers := corsJsonHeaders }, [ureq])
            else
              ({ status := 200, body := r.body,
                 headers := [("Content-Type", jsOrDefault r.contentType "application/xml"),
                             ("Access-Control-Allow-Origin", "*"),
                             ("Cache-Control", "public, max-age=300")] }, [ureq])

/-! ## The v2 worker (revision with /version, image relaying and the
extended allow-list) -/

/-- The injected build version placeholder. -/
def BUILD_VERSION : String := "__BUILD_VERSION__"

/-- `JSON.stringify({version: BUILD_VERSION, service: 'tumblr-proxy'})`. -/
def versionBody : String :=
  "\x7b\"version\":\"" ++ BUILD_VERSION ++ "\",\"service\":\"tumblr-proxy\"\x7d"

/-- The v2 `allowedDomains` array. -/
def allowedDomains : List String :=
  [".tumblr.com",
   "media.tumblr.com",
   "64.media.tumblr.com",
   "66.media.tumblr.com",
   "assets.tumblr.com"]

/-- The v2 allow-list check: a leading-dot entry matches by suffix, a bare
hostname entry matches exactly or as a dotted subdomain. -/
def isAllowedV2 (hostname : String) : Bool :=
  allowedDomains.any fun domain =>
    if strStartsWith domain "." then
      strEndsWith hostname domain
    else
      hostname == domain || strEndsWith hostname ("." ++ domain)

/-- The extensions of the v2 image regex `\.(jpg|jpeg|png|gif|webp)($|\?)`. -/
def imageExtensions : List String := ["jpg", "jpeg", "png", "gif", "webp"]

/-- Case-insensitive test of `/\.(jpg|jpeg|png|gif|webp)($|\?)/i` on a
pathname: a dot-extension at the end of the string or followed by `?`. -/
def hasImageExtension (pathname : String) : Bool :=
  let p := strToLower pathname
  imageExtensions.any fun ext =>
    strEndsWith p ("." ++ ext) || strContains p ("." ++ ext ++ "?")

/-- The v2 image classification: extension match on the pathname, or
`hostname.includes('media.tumblr.com')`. -/
def isImageRequest (t : TargetURL) : Bool :=
  hasImageExtension t.pathname || strContains t.hostname "media.tumblr.com"

/-- The v2 worker's `fetch` handler (same conventions as `workerV1`,
including the `if (!targetUrl)` test being true for both the absent and
the empty-string parameter). -/
def workerV2 (parse : String → Option TargetURL)
    (fetchFn : UpstreamRequest → FetchOutcome)
    (req : Request) : WResponse × List UpstreamRequest :=
  if req.path = "/version" then
    ({ status := 200, body := versionBody, headers := corsJsonHeaders }, [])
  else if req.method = "OPTIONS" then
    (preflightResponse, [])
  else if req.method ≠ "GET" then
    ({ status := 405, body := "Method not allowed", headers := [] }, [])
  else
    match req.urlParam with
    | none =>
      ({ status := 400, body := jsonError "Missing url parameter",
         headers := corsJsonHeaders }, [])
    | some targetUrl =>
      if targetUrl = "" then
        ({ status := 400, body := jsonError "Missing url parameter",
           headers := corsJsonHeaders }, [])
      else
      match parse targetUrl with
      | none =>
        ({ status := 400, body := jsonError "Invalid URL",
           headers := corsJsonHeaders }, [])
      | some parsedTarget =>
        if !isAllowedV2 parsedTarget.hostname then
          ({ status := 403, body := jsonError "Only tumblr.com domains allowed",
             headers := corsJsonHeaders }, [])
        else
          let isImage := isImageRequest parsedTarget
          let ureq : UpstreamRequest := { url := targetUrl, headers := v2UpstreamHeaders isImage }
          match fetchFn ureq with
          | .threw msg =>
            ({ status := 500, body := fetchFailBody msg,
               headers := corsJsonHeaders }, [ureq])
          | .resp r =>
            if !r.ok then
              ({ status := r.status, body := upstreamErrBody r.status,
                 headers := corsJsonHeaders }, [ureq])
            else if isImage then
              ({ status := 200, body := r.body,
                 headers := [("Content-Type", jsOrDefault r.contentType "image/jpeg"),
                             ("Access-Control-Allow-Origin", "*"),
                             ("Cache-Control", "public, max-age=86400")] }, [ureq])
            else
              ({ status := 200, body := r.body,
                 headers := [("Content-Type", jsOrDefault r.contentType "application/xml"),
                             ("Access-Control-Allow-Origin", "*"),
                             ("Cache-Control", "public, max-age=300")] }, [ureq])

/-- The upstream requests `workerV1` issues, as a function of the request
and the parser alone (the upstream oracle cannot influence them). -/
def issuedV1 (parse : String → Option TargetURL) (req : Request) :
    List UpstreamRequest :=
  if req.method = "OPTIONS" then []
  else if req.method ≠ "GET" then []
  else
    match req.urlParam with
    | none => []
    | some targetUrl =>
      if targetUrl = "" then []
      else
      match parse targetUrl with
      | none => []
      | some parsedTarget =>
        if !isAllowedV1 parsedTarget.hostname then []
        else [{ url := targetUrl, headers := v1UpstreamHeaders }]

/-- The upstream requests `workerV2` issues, as a function of the request
and the parser alone. -/
def issuedV2 (parse : String → Option TargetURL) (req : Request) :
    List UpstreamRequest :=
  if req.path = "/version" then []
  else if req.method = "OPTIONS" then []
  else if req.method ≠ "GET" then []
  else
    match req.urlParam with
    | none => []
    | some targetUrl =>
      if targetUrl = "" then []
      else
      match parse targetUrl with
      | none => []
      | some parsedTarget =>
        if !isAllowedV2 parsedTarget.hostname then []
        else [{ url := targetUrl,
                headers := v2UpstreamHeaders (isImageRequest parsedTarget) }]

/-! ## Demo URL parser and upstream oracles (concrete instances used by
the witness theorems) -/

/-- A small concrete instance of the `new URL` capability, enough to
exercise every branch of both workers. -/
def parseDemo : String → Option TargetURL := fun s =>
  if s = "https://myblog.tumblr.com/rss" then
    some { hostname := "myblog.tumblr.com", pathname := "/rss" }
  else if s = "https://evil.example.com/rss" then
    some { hostname := "evil.example.com", pathname := "/rss" }
  else if s = "https://64.media.tumblr.com/pic.jpg" then
    some { hostname := "64.media.tumblr.com", pathname := "/pic.jpg" }
  else if s = "https://eviltumblr.com/rss" then
    some { hostname := "eviltumblr.com", pathname := "/rss" }
  else if s = "https://tumblr.com.attacker.net/rss" then
    some { hostname := "tumblr.com.attacker.net", pathname := "/rss" }
  else if s = "https://tumblr.com/rss" then
    some { hostname := "tumblr.com", pathname := "/rss" }
  else
    none

/-- An upstream network that always answers 200 with an XML payload. -/
def fetchOk : UpstreamRequest → FetchOutcome := fun _ =>
  .resp { status := 200, contentType := some "text/xml", body := "<rss></rss>" }

/-- An upstream network that always answers 404. -/
def fetchNotFound : UpstreamRequest → FetchOutcome := fun _ =>
  .resp { status := 404, contentType := none, body := "gone" }

/-- An upstream network whose fetch always throws. -/
def fetchThrows : UpstreamRequest → FetchOutcome := fun _ => .threw "boom"

/-- An upstream network answering 200 with an empty `Content-Type` header
value (present but falsy in JavaScript). -/
def fetchEmptyCT : UpstreamRequest → FetchOutcome := fun _ =>
  .resp { status := 200, contentType := some "", body := "payload" }

end Relay

namespace Migration

/-- Modelled from the spec: the migration engine's `SourcePost` — the
Identity Deriver and the rest of the engine are absent from the sources
(only the READMEs and the spec describe them).  A post carries its stable
source identifier, canonical source URL and raw body. -/
structure SourcePost where
  sourceId : String
  canonicalUrl : String
  body : String
deriving Repr, DecidableEq

/-- A concrete deterministic digest of a character list (stand-in for the
cryptographic hash the spec names; only its determinism matters to the
idempotence claim). -/
def digestChars : List Char → Nat
  | [] => 7
  | c :: cs => (digestChars cs * 131 + c.toNat) % 1000000007

/-- Modelled from the spec: `deriveKey(P)` of the Identity Deriver, absent
from the sources.  Per the spec and the READMEs ("a unique identifier
based on its URL"), the record key is derived from the canonical source
URL through a deterministic digest. -/
def deriveKey (p : SourcePost) : String :=
  "rkey-" ++ toString (digestChars p.canonicalUrl.data)

/-- Modelled from the spec: the keys a full migration run writes, one
upsert per source post, in source order. -/
def runWriteKeys (posts : List SourcePost) : List String :=
  posts.map deriveKey

/-- Modelled from the spec: the keys of a run's writes that are new to the
destination store (a write to a key already in the store is an upsert to
an existing record, not a new record). -/
def newKeys (store : List String) (posts : List SourcePost) : List String :=
  (runWriteKeys posts).filter (fun k => !store.contains k)

/-- Modelled from the spec: the destination store after a run — upsert
semantics, so the store gains exactly the keys that were new. -/
def storeAfter (store : List String) (posts : List SourcePost) : List String :=
  store ++ newKeys store posts

end Migration

namespace Relay

/-! ## Helper lemmas -/

theorem strEndsWith_iff (s pat : String) :
    strEndsWith s pat = true ↔ pat.data <:+ s.data := by
  simp [strEndsWith, List.isSuffixOf_iff_suffix]

theorem strEndsWith_trans {s p q : String} (h1 : strEndsWith s p = true)
    (h2 : strEndsWith p q = true) : strEndsWith s q = true := by
  rw [strEndsWith_iff] at *
  exact h2.trans h1

theorem status_ne_200_of_not_ok (r : UpstreamResp) (h : r.ok = false) :
    r.status ≠ 200 := by
  intro he
  rw [UpstreamResp.ok, he] at h
  simp at h

theorem workerV1_snd (parse : String → Option TargetURL)
    (fetchFn : UpstreamRequest → FetchOutcome) (req : Request) :
    (workerV1 parse fetchFn req).2 = issuedV1 parse req := by
  unfold workerV1 issuedV1
  repeat first | rfl | split | dsimp only

theorem workerV2_snd (parse : String → Option TargetURL)
    (fetchFn : UpstreamRequest → FetchOutcome) (req : Request) :
    (workerV2 parse fetchFn req).2 = issuedV2 parse req := by
  unfold workerV2 issuedV2
  repeat first | rfl | split | dsimp only

theorem mem_issuedV1 (parse : String → Option TargetURL) (req : Request)
    (ur : UpstreamRequest) (h : ur ∈ issuedV1 parse req) :
    ∃ u t, req.urlParam = some u ∧ parse u = some t ∧
      isAllowedV1 t.hostname = true ∧
      ur = { url := u, headers := v1UpstreamHeaders } := by
  unfold issuedV1 at h
  split at h
  · simp at h
  split at h
  · simp at h
  split at h
  · simp at h
  rename_i u hu
  split at h
  · simp at h
  split at h
  · simp at h
  rename_i t hp
  split at h
  · simp at h
  rename_i hall
  simp only [List.mem_singleton] at h
  exact ⟨u, t, hu, hp, by simpa using hall, h⟩

theorem mem_issuedV2 (parse : String → Option TargetURL) (req : Request)
    (ur : UpstreamRequest) (h : ur ∈ issuedV2 parse req) :
    ∃ u t, req.urlParam = some u ∧ parse u = some t ∧
      isAllowedV2 t.hostname = true ∧ req.path ≠ "/version" ∧
      ur = { url := u, headers := v2UpstreamHeaders (isImageRequest t) } := by
  unfold issuedV2 at h
  split at h
  · simp at h
  rename_i hver
  split at h
  · simp at h
  split at h
  · simp at h
  split at h
  · simp at h
  rename_i u hu
  split at h
  · simp at h
  split at h
  · simp at h
  rename_i t hp
  split at h
  · simp at h
  rename_i hall
  simp only [List.mem_singleton] at h
  exact ⟨u, t, hu, hp, by simpa using hall, hver, h⟩

theorem isAllowedV2_eq (h : String) : isAllowedV2 h =
    (strEndsWith h ".tumblr.com" ||
     ((h == "media.tumblr.com" || strEndsWith h ".media.tumblr.com") ||
      ((h == "64.media.tumblr.com" || strEndsWith h ".64.media.tumblr.com") ||
       ((h == "66.media.tumblr.com" || strEndsWith h ".66.media.tumblr.com") ||
        ((h == "assets.tumblr.com" || strEndsWith h ".assets.tumblr.com") || false))))) := rfl

theorem isAllowedV2_iff_suffix (h : String) :
    isAllowedV2 h = true ↔ strEndsWith h ".tumblr.com" = true := by
  rw [isAllowedV2_eq]
  simp only [Bool.or_eq_true, beq_iff_eq, Bool.false_eq_true, or_false]
  constructor
  · rintro (h1 | (h2 | h3) | (h4 | h5) | (h6 | h7) | (h8 | h9))
    · exact h1
    · subst h2; decide
    · exact strEndsWith_trans h3 (by decide)
    · subst h4; decide
    · exact strEndsWith_trans h5 (by decide)
    · subst h6; decide
    · exact strEndsWith_trans h7 (by decide)
    · subst h8; decide
    · exact strEndsWith_trans h9 (by decide)
  · intro h1
    exact Or.inl h1

end Relay

namespace Migration

theorem storeAfter_nil (posts : List SourcePost) :
    storeAfter [] posts = runWriteKeys posts := by
  simp [storeAfter, newKeys]

theorem newKeys_self (posts : List SourcePost) :
    newKeys (runWriteKeys posts) posts = [] := by
  unfold newKeys
  rw [List.filter_eq_nil_iff]
  intro k hk
  simp [hk]

end Migration

/-! ## The claims -/

/-- C8: `deriveKey` is a deterministic, pure function of the source post
(derived from the canonical source URL through a content digest), so
re-running the full migration on an unchanged source produces zero new
record keys: after one full run every post's key is already in the store,
and a second run over the same posts writes only to existing keys. -/
theorem c8_derive_key_idempotent (posts : List Migration.SourcePost) :
    (∀ p, p ∈ posts → Migration.deriveKey p ∈ Migration.storeAfter [] posts)
    ∧ Migration.newKeys (Migration.storeAfter [] posts) posts = [] := by
  constructor
  · intro p hp
    rw [Migration.storeAfter_nil]
    exact List.mem_map_of_mem Migration.deriveKey hp
  · rw [Migration.storeAfter_nil]
    exact Migration.newKeys_self posts

theorem c8_derive_key_idempotent_witness :
    Migration.deriveKey ⟨"p1", "https://myblog.tumblr.com/post/1", "hello"⟩ ∈
      Migration.storeAfter []
        [⟨"p1", "https://myblog.tumblr.com/post/1", "hello"⟩,
         ⟨"p2", "https://myblog.tumblr.com/post/2", "world"⟩] :=
  (c8_derive_key_idempotent
    [⟨"p1", "https://myblog.tumblr.com/post/1", "hello"⟩,
     ⟨"p2", "https://myblog.tumblr.com/post/2", "world"⟩]).1 _ (by simp)

/-- C10: the v1 allow-list accepts a hostname iff `.tumblr.com` is a
literal suffix of it; the v2 allow-list accepts iff `.tumblr.com` is a
literal suffix or the hostname equals or is a dotted subdomain of one of
the listed media/assets hosts; the lookalikes `eviltumblr.com` and
`tumblr.com.attacker.net` and the bare apex `tumblr.com` are all
rejected by both. -/
theorem c10_allowlist_characterization :
    (∀ h, Relay.isAllowedV1 h = true ↔ Relay.strEndsWith h ".tumblr.com" = true)
    ∧ (∀ h, Relay.isAllowedV2 h = true ↔
        (Relay.strEndsWith h ".tumblr.com" = true ∨
         ∃ d ∈ ["media.tumblr.com", "64.media.tumblr.com",
                "66.media.tumblr.com", "assets.tumblr.com"],
           h = d ∨ Relay.strEndsWith h ("." ++ d) = true))
    ∧ Relay.isAllowedV1 "eviltumblr.com" = false
    ∧ Relay.isAllowedV2 "eviltumblr.com" = false
    ∧ Relay.isAllowedV1 "tumblr.com.attacker.net" = false
    ∧ Relay.isAllowedV2 "tumblr.com.attacker.net" = false
    ∧ Relay.isAllowedV1 "tumblr.com" = false
    ∧ Relay.isAllowedV2 "tumblr.com" = false
    ∧ Relay.isAllowedV2 "media.tumblr.com" = true
    ∧ Relay.isAllowedV2 "myblog.tumblr.com" = true := by
  refine ⟨fun h => Iff.rfl, fun h => ?_, by decide, by decide, by decide, by decide,
    by decide, by decide, by decide, by decide⟩
  rw [Relay.isAllowedV2_iff_suffix]
  constructor
  · intro h1
    exact Or.inl h1
  · rintro (h1 | ⟨d, hd, hcase⟩)
    · exact h1
    · simp only [List.mem_cons, List.not_mem_nil, or_false] at hd
      rcases hd with rfl | rfl | rfl | rfl <;>
        rcases hcase with rfl | hsuf <;>
        first
          | decide
          | exact Relay.strEndsWith_trans hsuf (by decide)

theorem c10_allowlist_characterization_witness :
    Relay.isAllowedV2 "64.media.tumblr.com" = true :=
  (c10_allowlist_characterization.2.1 "64.media.tumblr.com").mpr
    (Or.inr ⟨"64.media.tumblr.com", by simp, Or.inl rfl⟩)

/-- C1: a GET request whose `url` parameter parses to a hostname outside
the allow-list is answered 403 with a JSON error body and no upstream
fetch (v1: hostnames not ending in `.tumblr.com`; v2: hostnames failing
the extended allow-list); conversely, every upstream request either worker
issues is for a target whose parsed hostname passed the allow-list. -/
theorem c1_allowlist_gates_upstream (parse : String → Option Relay.TargetURL)
    (fetchFn : Relay.UpstreamRequest → Relay.FetchOutcome)
    (hemp : parse "" = none) :
    (∀ req u t, req.method = "GET" → req.urlParam = some u → parse u = some t →
      Relay.isAllowedV1 t.hostname = false →
      Relay.workerV1 parse fetchFn req =
        ({ status := 403, body := Relay.jsonError "Only tumblr.com domains allowed",
           headers := Relay.corsJsonHeaders }, []))
    ∧ (∀ req u t, req.path ≠ "/version" → req.method = "GET" → req.urlParam = some u →
      parse u = some t → Relay.isAllowedV2 t.hostname = false →
      Relay.workerV2 parse fetchFn req =
        ({ status := 403, body := Relay.jsonError "Only tumblr.com domains allowed",
           headers := Relay.corsJsonHeaders }, []))
    ∧ (∀ req ur, ur ∈ (Relay.workerV1 parse fetchFn req).2 →
      ∃ u t, req.urlParam = some u ∧ parse u = some t ∧ Relay.isAllowedV1 t.hostname = true)
    ∧ (∀ req ur, ur ∈ (Relay.workerV2 parse fetchFn req).2 →
      ∃ u t, req.urlParam = some u ∧ parse u = some t ∧ Relay.isAllowedV2 t.hostname = true) := by
  refine ⟨?_, ?_, ?_, ?_⟩
  · intro req u t hm hu hp hall
    have hne : u ≠ "" := by
      intro he
      rw [he, hemp] at hp
      exact Option.noConfusion hp
    simp [Relay.workerV1, hm, hu, hne, hp, hall]
  · intro req u t hver hm hu hp hall
    have hne : u ≠ "" := by
      intro he
      rw [he, hemp] at hp
      exact Option.noConfusion hp
    simp [Relay.workerV2, hver, hm, hu, hne, hp, hall]
  · intro req ur h
    rw [Relay.workerV1_snd] at h
    obtain ⟨u, t, h1, h2, h3, _⟩ := Relay.mem_issuedV1 parse req ur h
    exact ⟨u, t, h1, h2, h3⟩
  · intro req ur h
    rw [Relay.workerV2_snd] at h
    obtain ⟨u, t, h1, h2, h3, _, _⟩ := Relay.mem_issuedV2 parse req ur h
    exact ⟨u, t, h1, h2, h3⟩

theorem c1_allowlist_gates_upstream_witness :
    Relay.workerV1 Relay.parseDemo Relay.fetchOk
      { method := "GET", path := "/", urlParam := some "https://evil.example.com/rss",
        headers := [] } =
      ({ status := 403, body := Relay.jsonError "Only tumblr.com domains allowed",
         headers := Relay.corsJsonHeaders }, []) :=
  (c1_allowlist_gates_upstream Relay.parseDemo Relay.fetchOk (by decide)).1
    { method := "GET", path := "/", urlParam := some "https://evil.example.com/rss",
      headers := [] }
    "https://evil.example.com/rss"
    { hostname := "evil.example.com", pathname := "/rss" }
    rfl rfl (by decide) (by decide)

/-- C2: the upstream requests either worker issues depend only on the
`url` query parameter (and, for v2, the request path reaching the proxy
branch): two inbound requests agreeing on method, path and `url`
parameter but with arbitrarily different inbound headers produce
identical upstream request lists, even against different upstream
networks; and every issued upstream request carries exactly the fixed
User-Agent/Accept header pair, so no inbound header, cookie or credential
ever crosses the relay boundary. -/
theorem c2_upstream_depends_only_on_url (parse : String → Option Relay.TargetURL)
    (fetchFn fetchFn' : Relay.UpstreamRequest → Relay.FetchOutcome)
    (req req' : Relay.Request) (hm : req.method = req'.method)
    (hp : req.path = req'.path) (hu : req.urlParam = req'.urlParam) :
    (Relay.workerV1 parse fetchFn req).2 = (Relay.workerV1 parse fetchFn' req').2
    ∧ (Relay.workerV2 parse fetchFn req).2 = (Relay.workerV2 parse fetchFn' req').2
    ∧ (∀ ur, ur ∈ (Relay.workerV1 parse fetchFn req).2 →
        ur.headers = Relay.v1UpstreamHeaders)
    ∧ (∀ ur, ur ∈ (Relay.workerV2 parse fetchFn req).2 →
        ur.headers = Relay.v2UpstreamHeaders false ∨
        ur.headers = Relay.v2UpstreamHeaders true) := by
  refine ⟨?_, ?_, ?_, ?_⟩
  · rw [Relay.workerV1_snd, Relay.workerV1_snd]
    unfold Relay.issuedV1
    rw [hm, hu]
  · rw [Relay.workerV2_snd, Relay.workerV2_snd]
    unfold Relay.issuedV2
    rw [hm, hp, hu]
  · intro ur h
    rw [Relay.workerV1_snd] at h
    obtain ⟨u, t, _, _, _, he⟩ := Relay.mem_issuedV1 parse req ur h
    subst he
    rfl
  · intro ur h
    rw [Relay.workerV2_snd] at h
    obtain ⟨u, t, _, _, _, _, he⟩ := Relay.mem_issuedV2 parse req ur h
    subst he
    cases Relay.isImageRequest t
    · exact Or.inl rfl
    · exact Or.inr rfl

theorem c2_upstream_depends_only_on_url_witness :
    (Relay.workerV1 Relay.parseDemo Relay.fetchOk
      { method := "GET", path := "/", urlParam := some "https://myblog.tumblr.com/rss",
        headers := [("Cookie", "secret-session"), ("Authorization", "Bearer app-password")] }).2 =
    (Relay.workerV1 Relay.parseDemo Relay.fetchThrows
      { method := "GET", path := "/", urlParam := some "https://myblog.tumblr.com/rss",
        headers := [] }).2 :=
  (c2_upstream_depends_only_on_url Relay.parseDemo Relay.fetchOk Relay.fetchThrows
    _ _ rfl rfl rfl).1

/-- C9: a GET request (to a non-`/version` path in v2) whose `url` query
parameter is absent, or present but not parseable as a URL, is answered
400 with a JSON error body naming the problem and no upstream fetch: the
absent parameter and the empty-string parameter (falsy to the source's
`!targetUrl` test, and unparseable since `new URL('')` throws) get the
`Missing url parameter` body, while a present, non-empty, unparseable
parameter gets the `Invalid URL` body. -/
theorem c9_bad_url_parameter_rejected (parse : String → Option Relay.TargetURL)
    (fetchFn : Relay.UpstreamRequest → Relay.FetchOutcome) :
    (∀ req, req.method = "GET" →
      (req.urlParam = none ∨ req.urlParam = some "") →
      Relay.workerV1 parse fetchFn req =
        ({ status := 400, body := Relay.jsonError "Missing url parameter",
           headers := Relay.corsJsonHeaders }, []))
    ∧ (∀ req u, req.method = "GET" → req.urlParam = some u → u ≠ "" →
      parse u = none →
      Relay.workerV1 parse fetchFn req =
        ({ status := 400, body := Relay.jsonError "Invalid URL",
           headers := Relay.corsJsonHeaders }, []))
    ∧ (∀ req, req.path ≠ "/version" → req.method = "GET" →
      (req.urlParam = none ∨ req.urlParam = some "") →
      Relay.workerV2 parse fetchFn req =
        ({ status := 400, body := Relay.jsonError "Missing url parameter",
           headers := Relay.corsJsonHeaders }, []))
    ∧ (∀ req u, req.path ≠ "/version" → req.method = "GET" → req.urlParam = some u →
      u ≠ "" → parse u = none →
      Relay.workerV2 parse fetchFn req =
        ({ status := 400, body := Relay.jsonError "Invalid URL",
           headers := Relay.corsJsonHeaders }, [])) := by
  refine ⟨?_, ?_, ?_, ?_⟩
  · intro req hm hu
    rcases hu with hu | hu <;> simp [Relay.workerV1, hm, hu]
  · intro req u hm hu hne hp
    simp [Relay.workerV1, hm, hu, hne, hp]
  · intro req hver hm hu
    rcases hu with hu | hu <;> simp [Relay.workerV2, hver, hm, hu]
  · intro req u hver hm hu hne hp
    simp [Relay.workerV2, hver, hm, hu, hne, hp]

theorem c9_bad_url_parameter_rejected_witness :
    Relay.workerV1 Relay.parseDemo Relay.fetchOk
      { method := "GET", path := "/", urlParam := some "", headers := [] } =
      ({ status := 400, body := Relay.jsonError "Missing url parameter",
         headers := Relay.corsJsonHeaders }, []) ∧
    Relay.workerV2 Relay.parseDemo Relay.fetchOk
      { method := "GET", path := "/", urlParam := some "not a url", headers := [] } =
      ({ status := 400, body := Relay.jsonError "Invalid URL",
         headers := Relay.corsJsonHeaders }, []) :=
  ⟨(c9_bad_url_parameter_rejected Relay.parseDemo Relay.fetchOk).1
    { method := "GET", path := "/", urlParam := some "", headers := [] }
    rfl (Or.inr rfl),
   (c9_bad_url_parameter_rejected Relay.parseDemo Relay.fetchOk).2.2.2
    { method := "GET", path := "/", urlParam := some "not a url", headers := [] }
    "not a url" (by decide) rfl rfl (by decide) (by decide)⟩

/-- C7 counterexample: in the v2 worker the `/version` check precedes the
method check, so a POST to `/version` — a method that is neither GET nor
OPTIONS — is answered 200 with the version body, not 405 as the claim
states (it still issues no upstream fetch). -/
theorem c7_version_path_counterexample :
    ("POST" ≠ "GET" ∧ "POST" ≠ "OPTIONS")
    ∧ (Relay.workerV2 Relay.parseDemo Relay.fetchOk
        { method := "POST", path := "/version", urlParam := none, headers := [] }).1.status = 200
    ∧ ¬ (Relay.workerV2 Relay.parseDemo Relay.fetchOk
        { method := "POST", path := "/version", urlParam := none, headers := [] }).1.status = 405 := by
  decide

/-- C7 (amended): a request whose method is neither GET nor OPTIONS is
answered 405 with no upstream fetch by the v1 worker, and by the v2
worker whenever its path is not `/version`; the v2 `/version` endpoint
answers any method without ever issuing an upstream fetch. -/
theorem c7_non_get_rejected (parse : String → Option Relay.TargetURL)
    (fetchFn : Relay.UpstreamRequest → Relay.FetchOutcome) :
    (∀ req, req.method ≠ "GET" → req.method ≠ "OPTIONS" →
      Relay.workerV1 parse fetchFn req =
        ({ status := 405, body := "Method not allowed", headers := [] }, []))
    ∧ (∀ req, req.path ≠ "/version" → req.method ≠ "GET" → req.method ≠ "OPTIONS" →
      Relay.workerV2 parse fetchFn req =
        ({ status := 405, body := "Method not allowed", headers := [] }, []))
    ∧ (∀ req, req.path = "/version" → (Relay.workerV2 parse fetchFn req).2 = []) := by
  refine ⟨?_, ?_, ?_⟩
  · intro req hg ho
    simp [Relay.workerV1, hg, ho]
  · intro req hver hg ho
    simp [Relay.workerV2, hver, hg, ho]
  · intro req hver
    rw [Relay.workerV2_snd]
    unfold Relay.issuedV2
    simp [hver]

theorem c7_non_get_rejected_witness :
    Relay.workerV1 Relay.parseDemo Relay.fetchOk
      { method := "POST", path := "/", urlParam := some "https://myblog.tumblr.com/rss",
        headers := [] } =
      ({ status := 405, body := "Method not allowed", headers := [] }, []) :=
  (c7_non_get_rejected Relay.parseDemo Relay.fetchOk).1
    { method := "POST", path := "/", urlParam := some "https://myblog.tumblr.com/rss",
      headers := [] }
    (by decide) (by decide)

/-- C4 counterexample: the 405 method-not-allowed branch of both workers
(`new Response('Method not allowed', { status: 405 })`) passes no headers
at all, so that response does not carry
`Access-Control-Allow-Origin: *`, contradicting the claim that every
branch does. -/
theorem c4_acao_counterexample :
    (Relay.workerV1 Relay.parseDemo Relay.fetchOk
      { method := "POST", path := "/", urlParam := none, headers := [] }).1.headers = []
    ∧ ("Access-Control-Allow-Origin", "*") ∉
      (Relay.workerV1 Relay.parseDemo Relay.fetchOk
        { method := "POST", path := "/", urlParam := none, headers := [] }).1.headers
    ∧ ("Access-Control-Allow-Origin", "*") ∉
      (Relay.workerV2 Relay.parseDemo Relay.fetchOk
        { method := "DELETE", path := "/", urlParam := none, headers := [] }).1.headers := by
  decide

/-- C4 (amended): every response of either worker carries
`Access-Control-Allow-Origin: *` except the 405 method-not-allowed
response, which carries no headers at all: for v1 every OPTIONS or GET
request, and for v2 additionally every `/version` request, is answered
with the permissive CORS header on every branch. -/
theorem c4_acao_on_every_branch (parse : String → Option Relay.TargetURL)
    (fetchFn : Relay.UpstreamRequest → Relay.FetchOutcome) (req : Relay.Request) :
    (req.method = "OPTIONS" ∨ req.method = "GET" →
      ("Access-Control-Allow-Origin", "*") ∈ (Relay.workerV1 parse fetchFn req).1.headers)
    ∧ (req.path = "/version" ∨ req.method = "OPTIONS" ∨ req.method = "GET" →
      ("Access-Control-Allow-Origin", "*") ∈ (Relay.workerV2 parse fetchFn req).1.headers) := by
  constructor
  · rintro (hm | hm)
    · simp [Relay.workerV1, hm, Relay.preflightResponse]
    · cases hup : req.urlParam with
      | none => simp [Relay.workerV1, hm, hup, Relay.corsJsonHeaders]
      | some u =>
        rcases eq_or_ne u "" with hne | hne
        · simp [Relay.workerV1, hm, hup, hne, Relay.corsJsonHeaders]
        cases hp : parse u with
        | none => simp [Relay.workerV1, hm, hup, hne, hp, Relay.corsJsonHeaders]
        | some t =>
          cases hall : Relay.isAllowedV1 t.hostname with
          | false => simp [Relay.workerV1, hm, hup, hne, hp, hall, Relay.corsJsonHeaders]
          | true =>
            cases hf : fetchFn { url := u, headers := Relay.v1UpstreamHeaders } with
            | threw msg =>
              simp [Relay.workerV1, hm, hup, hne, hp, hall, hf, Relay.corsJsonHeaders]
            | resp r =>
              cases hok : r.ok with
              | false =>
                simp [Relay.workerV1, hm, hup, hne, hp, hall, hf, hok, Relay.corsJsonHeaders]
              | true => simp [Relay.workerV1, hm, hup, hne, hp, hall, hf, hok]
  · rintro (hver | hm | hm)
    · simp [Relay.workerV2, hver, Relay.corsJsonHeaders]
    · by_cases hver : req.path = "/version"
      · simp [Relay.workerV2, hver, Relay.corsJsonHeaders]
      · simp [Relay.workerV2, hver, hm, Relay.preflightResponse]
    · by_cases hver : req.path = "/version"
      · simp [Relay.workerV2, hver, Relay.corsJsonHeaders]
      · cases hup : req.urlParam with
        | none => simp [Relay.workerV2, hver, hm, hup, Relay.corsJsonHeaders]
        | some u =>
          rcases eq_or_ne u "" with hne | hne
          · simp [Relay.workerV2, hver, hm, hup, hne, Relay.corsJsonHeaders]
          cases hp : parse u with
          | none => simp [Relay.workerV2, hver, hm, hup, hne, hp, Relay.corsJsonHeaders]
          | some t =>
            cases hall : Relay.isAllowedV2 t.hostname with
            | false => simp [Relay.workerV2, hver, hm, hup, hne, hp, hall, Relay.corsJsonHeaders]
            | true =>
              cases hf : fetchFn
                  { url := u, headers := Relay.v2UpstreamHeaders (Relay.isImageRequest t) } with
              | threw msg =>
                simp [Relay.workerV2, hver, hm, hup, hne, hp, hall, hf, Relay.corsJsonHeaders]
              | resp r =>
                cases hok : r.ok with
                | false =>
                  simp [Relay.workerV2, hver, hm, hup, hne, hp, hall, hf, hok,
                    Relay.corsJsonHeaders]
                | true =>
                  cases himg : Relay.isImageRequest t with
                  | false =>
                    rw [himg] at hf
                    simp [Relay.workerV2, hver, hm, hup, hne, hp, hall, hf, hok, himg]
                  | true =>
                    rw [himg] at hf
                    simp [Relay.workerV2, hver, hm, hup, hne, hp, hall, hf, hok, himg]

theorem c4_acao_on_every_branch_witness :
    ("Access-Control-Allow-Origin", "*") ∈
      (Relay.workerV1 Relay.parseDemo Relay.fetchOk
        { method := "GET", path := "/", urlParam := some "https://myblog.tumblr.com/rss",
          headers := [] }).1.headers :=
  (c4_acao_on_every_branch Relay.parseDemo Relay.fetchOk
    { method := "GET", path := "/", urlParam := some "https://myblog.tumblr.com/rss",
      headers := [] }).1 (Or.inr rfl)

/-- C5: when the upstream fetch for an allow-listed target returns a
non-ok status S, either worker responds with the same status S and a
JSON body reporting S; when the upstream fetch throws, either worker
responds 500 with a JSON body carrying the failure detail; and the
non-ok passthrough status is never 200. -/
theorem c5_upstream_failures_surfaced (parse : String → Option Relay.TargetURL)
    (fetchFn : Relay.UpstreamRequest → Relay.FetchOutcome)
    (hemp : parse "" = none) :
    (∀ req u t r, req.method = "GET" → req.urlParam = some u → parse u = some t →
      Relay.isAllowedV1 t.hostname = true →
      fetchFn { url := u, headers := Relay.v1UpstreamHeaders } = .resp r → r.ok = false →
      (Relay.workerV1 parse fetchFn req).1.status = r.status ∧
      (Relay.workerV1 parse fetchFn req).1.body = Relay.upstreamErrBody r.status ∧
      (Relay.workerV1 parse fetchFn req).1.status ≠ 200)
    ∧ (∀ req u t msg, req.method = "GET" → req.urlParam = some u → parse u = some t →
      Relay.isAllowedV1 t.hostname = true →
      fetchFn { url := u, headers := Relay.v1UpstreamHeaders } = .threw msg →
      (Relay.workerV1 parse fetchFn req).1.status = 500 ∧
      (Relay.workerV1 parse fetchFn req).1.body = Relay.fetchFailBody msg)
    ∧ (∀ req u t r, req.path ≠ "/version" → req.method = "GET" → req.urlParam = some u →
      parse u = some t → Relay.isAllowedV2 t.hostname = true →
      fetchFn { url := u, headers := Relay.v2UpstreamHeaders (Relay.isImageRequest t) } =
        .resp r → r.ok = false →
      (Relay.workerV2 parse fetchFn req).1.status = r.status ∧
      (Relay.workerV2 parse fetchFn req).1.body = Relay.upstreamErrBody r.status ∧
      (Relay.workerV2 parse fetchFn req).1.status ≠ 200)
    ∧ (∀ req u t msg, req.path ≠ "/version" → req.method = "GET" → req.urlParam = some u →
      parse u = some t → Relay.isAllowedV2 t.hostname = true →
      fetchFn { url := u, headers := Relay.v2UpstreamHeaders (Relay.isImageRequest t) } =
        .threw msg →
      (Relay.workerV2 parse fetchFn req).1.status = 500 ∧
      (Relay.workerV2 parse fetchFn req).1.body = Relay.fetchFailBody msg) := by
  have hne : ∀ u t, parse u = some t → u ≠ "" := by
    intro u t hp he
    rw [he, hemp] at hp
    exact Option.noConfusion hp
  refine ⟨?_, ?_, ?_, ?_⟩
  · intro req u t r hm hu hp hall hf hok
    have h200 := Relay.status_ne_200_of_not_ok r hok
    simp [Relay.workerV1, hm, hu, hne u t hp, hp, hall, hf, hok, h200]
  · intro req u t msg hm hu hp hall hf
    simp [Relay.workerV1, hm, hu, hne u t hp, hp, hall, hf]
  · intro req u t r hver hm hu hp hall hf hok
    have h200 := Relay.status_ne_200_of_not_ok r hok
    simp [Relay.workerV2, hver, hm, hu, hne u t hp, hp, hall, hf, hok, h200]
  · intro req u t msg hver hm hu hp hall hf
    simp [Relay.workerV2, hver, hm, hu, hne u t hp, hp, hall, hf]

theorem c5_upstream_failures_surfaced_witness :
    (Relay.workerV1 Relay.parseDemo Relay.fetchNotFound
      { method := "GET", path := "/", urlParam := some "https://myblog.tumblr.com/rss",
        headers := [] }).1.status = 404 ∧
    (Relay.workerV1 Relay.parseDemo Relay.fetchNotFound
      { method := "GET", path := "/", urlParam := some "https://myblog.tumblr.com/rss",
        headers := [] }).1.body = Relay.upstreamErrBody 404 ∧
    (Relay.workerV1 Relay.parseDemo Relay.fetchNotFound
      { method := "GET", path := "/", urlParam := some "https://myblog.tumblr.com/rss",
        headers := [] }).1.status ≠ 200 :=
  (c5_upstream_failures_surfaced Relay.parseDemo Relay.fetchNotFound (by decide)).1
    { method := "GET", path := "/", urlParam := some "https://myblog.tumblr.com/rss",
      headers := [] }
    "https://myblog.tumblr.com/rss"
    { hostname := "myblog.tumblr.com", pathname := "/rss" }
    { status := 404, contentType := none, body := "gone" }
    rfl rfl (by decide) (by decide) (by decide) (by decide)

/-- C3 counterexample: the upstream can answer ok with a present but
empty `Content-Type` header; JavaScript `get('Content-Type') ||
'application/xml'` treats the empty string as falsy, so the relay's
Content-Type is `application/xml` and not the upstream header value `""`
— the claim's "equal to the upstream Content-Type header when present"
fails at this input. -/
theorem c3_passthrough_counterexample :
    (Relay.fetchEmptyCT
        { url := "https://myblog.tumblr.com/rss", headers := Relay.v1UpstreamHeaders } =
      .resp { status := 200, contentType := some "", body := "payload" })
    ∧ (Relay.workerV1 Relay.parseDemo Relay.fetchEmptyCT
        { method := "GET", path := "/", urlParam := some "https://myblog.tumblr.com/rss",
          headers := [] }).1.status = 200
    ∧ Relay.headerGet (Relay.workerV1 Relay.parseDemo Relay.fetchEmptyCT
        { method := "GET", path := "/", urlParam := some "https://myblog.tumblr.com/rss",
          headers := [] }).1.headers "Content-Type" = some "application/xml"
    ∧ ¬ Relay.headerGet (Relay.workerV1 Relay.parseDemo Relay.fetchEmptyCT
        { method := "GET", path := "/", urlParam := some "https://myblog.tumblr.com/rss",
          headers := [] }).1.headers "Content-Type" = some "" := by
  decide

/-- C3 (amended): for every GET request to an allow-listed target whose
upstream fetch succeeds with an ok status (v2: and that is not an image
request), the relay returns 200 with a body equal byte for byte to the
upstream body, and a Content-Type equal to the upstream Content-Type
header when that header is present with a non-empty value, defaulting to
`application/xml` when the header is absent or empty. -/
theorem c3_ok_passthrough (parse : String → Option Relay.TargetURL)
    (fetchFn : Relay.UpstreamRequest → Relay.FetchOutcome)
    (hemp : parse "" = none) :
    (∀ req u t r, req.method = "GET" → req.urlParam = some u → parse u = some t →
      Relay.isAllowedV1 t.hostname = true →
      fetchFn { url := u, headers := Relay.v1UpstreamHeaders } = .resp r → r.ok = true →
      (Relay.workerV1 parse fetchFn req).1.status = 200 ∧
      (Relay.workerV1 parse fetchFn req).1.body = r.body ∧
      (∀ ct, r.contentType = some ct → ct ≠ "" →
        Relay.headerGet (Relay.workerV1 parse fetchFn req).1.headers "Content-Type" =
          some ct) ∧
      ((r.contentType = none ∨ r.contentType = some "") →
        Relay.headerGet (Relay.workerV1 parse fetchFn req).1.headers "Content-Type" =
          some "application/xml"))
    ∧ (∀ req u t r, req.path ≠ "/version" → req.method = "GET" → req.urlParam = some u →
      parse u = some t → Relay.isAllowedV2 t.hostname = true →
      Relay.isImageRequest t = false →
      fetchFn { url := u, headers := Relay.v2UpstreamHeaders false } = .resp r →
      r.ok = true →
      (Relay.workerV2 parse fetchFn req).1.status = 200 ∧
      (Relay.workerV2 parse fetchFn req).1.body = r.body ∧
      (∀ ct, r.contentType = some ct → ct ≠ "" →
        Relay.headerGet (Relay.workerV2 parse fetchFn req).1.headers "Content-Type" =
          some ct) ∧
      ((r.contentType = none ∨ r.contentType = some "") →
        Relay.headerGet (Relay.workerV2 parse fetchFn req).1.headers "Content-Type" =
          some "application/xml")) := by
  constructor
  · intro req u t r hm hu hp hall hf hok
    have hne : u ≠ "" := by
      intro he
      rw [he, hemp] at hp
      exact Option.noConfusion hp
    have hw : Relay.workerV1 parse fetchFn req =
        ({ status := 200, body := r.body,
           headers := [("Content-Type", Relay.jsOrDefault r.contentType "application/xml"),
                       ("Access-Control-Allow-Origin", "*"),
                       ("Cache-Control", "public, max-age=300")] },
         [{ url := u, headers := Relay.v1UpstreamHeaders }]) := by
      simp [Relay.workerV1, hm, hu, hne, hp, hall, hf, hok]
    rw [hw]
    refine ⟨rfl, rfl, ?_, ?_⟩
    · intro ct hct hne
      simp [Relay.headerGet, Relay.jsOrDefault, hct, hne]
    · rintro (hct | hct) <;> simp [Relay.headerGet, Relay.jsOrDefault, hct]
  · intro req u t r hver hm hu hp hall himg hf hok
    have hne : u ≠ "" := by
      intro he
      rw [he, hemp] at hp
      exact Option.noConfusion hp
    have hw : Relay.workerV2 parse fetchFn req =
        ({ status := 200, body := r.body,
           headers := [("Content-Type", Relay.jsOrDefault r.contentType "application/xml"),
                       ("Access-Control-Allow-Origin", "*"),
                       ("Cache-Control", "public, max-age=300")] },
         [{ url := u, headers := Relay.v2UpstreamHeaders false }]) := by
      simp [Relay.workerV2, hver, hm, hu, hne, hp, hall, himg, hf, hok]
    rw [hw]
    refine ⟨rfl, rfl, ?_, ?_⟩
    · intro ct hct hne
      simp [Relay.headerGet, Relay.jsOrDefault, hct, hne]
    · rintro (hct | hct) <;> simp [Relay.headerGet, Relay.jsOrDefault, hct]

theorem c3_ok_passthrough_witness :
    (Relay.workerV1 Relay.parseDemo Relay.fetchOk
      { method := "GET", path := "/", urlParam := some "https://myblog.tumblr.com/rss",
        headers := [] }).1.status = 200 ∧
    (Relay.workerV1 Relay.parseDemo Relay.fetchOk
      { method := "GET", path := "/", urlParam := some "https://myblog.tumblr.com/rss",
        headers := [] }).1.body = "<rss></rss>" ∧
    Relay.headerGet (Relay.workerV1 Relay.parseDemo Relay.fetchOk
      { method := "GET", path := "/", urlParam := some "https://myblog.tumblr.com/rss",
        headers := [] }).1.headers "Content-Type" = some "text/xml" := by
  have h := (c3_ok_passthrough Relay.parseDemo Relay.fetchOk (by decide)).1
    { method := "GET", path := "/", urlParam := some "https://myblog.tumblr.com/rss",
      headers := [] }
    "https://myblog.tumblr.com/rss"
    { hostname := "myblog.tumblr.com", pathname := "/rss" }
    { status := 200, contentType := some "text/xml", body := "<rss></rss>" }
    rfl rfl (by decide) (by decide) (by decide) (by decide)
  exact ⟨h.1, h.2.1, h.2.2.1 "text/xml" rfl (by decide)⟩

/-- C6 counterexample: for an image request whose upstream answers ok
with a present but empty `Content-Type` header, JavaScript
`get('Content-Type') || 'image/jpeg'` treats the empty string as falsy,
so the relay's Content-Type is `image/jpeg` and not the upstream header
value `""` — the claim's "equal to the upstream Content-Type when that
header is present" fails at this input. -/
theorem c6_image_counterexample :
    Relay.isImageRequest { hostname := "64.media.tumblr.com", pathname := "/pic.jpg" } = true
    ∧ (Relay.fetchEmptyCT
        { url := "https://64.media.tumblr.com/pic.jpg",
          headers := Relay.v2UpstreamHeaders true } =
      .resp { status := 200, contentType := some "", body := "payload" })
    ∧ (Relay.workerV2 Relay.parseDemo Relay.fetchEmptyCT
        { method := "GET", path := "/",
          urlParam := some "https://64.media.tumblr.com/pic.jpg", headers := [] }).1.status = 200
    ∧ Relay.headerGet (Relay.workerV2 Relay.parseDemo Relay.fetchEmptyCT
        { method := "GET", path := "/",
          urlParam := some "https://64.media.tumblr.com/pic.jpg",
          headers := [] }).1.headers "Content-Type" = some "image/jpeg"
    ∧ ¬ Relay.headerGet (Relay.workerV2 Relay.parseDemo Relay.fetchEmptyCT
        { method := "GET", path := "/",
          urlParam := some "https://64.media.tumblr.com/pic.jpg",
          headers := [] }).1.headers "Content-Type" = some "" := by
  decide

/-- C6 (amended): in the v2 worker, for every request classified as an
image request (dot-extension jpg/jpeg/png/gif/webp on the target path, or
a target hostname containing `media.tumblr.com`) whose upstream fetch is
ok, the relay returns 200 with the upstream body bytes and a Content-Type
equal to the upstream Content-Type when that header is present with a
non-empty value, and the generic `image/jpeg` when the header is absent
or empty. -/
theorem c6_image_passthrough (parse : String → Option Relay.TargetURL)
    (fetchFn : Relay.UpstreamRequest → Relay.FetchOutcome)
    (hemp : parse "" = none) :
    ∀ req u t r, req.path ≠ "/version" → req.method = "GET" → req.urlParam = some u →
      parse u = some t → Relay.isAllowedV2 t.hostname = true →
      Relay.isImageRequest t = true →
      fetchFn { url := u, headers := Relay.v2UpstreamHeaders true } = .resp r →
      r.ok = true →
      (Relay.workerV2 parse fetchFn req).1.status = 200 ∧
      (Relay.workerV2 parse fetchFn req).1.body = r.body ∧
      (∀ ct, r.contentType = some ct → ct ≠ "" →
        Relay.headerGet (Relay.workerV2 parse fetchFn req).1.headers "Content-Type" =
          some ct) ∧
      ((r.contentType = none ∨ r.contentType = some "") →
        Relay.headerGet (Relay.workerV2 parse fetchFn req).1.headers "Content-Type" =
          some "image/jpeg") := by
  intro req u t r hver hm hu hp hall himg hf hok
  have hne : u ≠ "" := by
    intro he
    rw [he, hemp] at hp
    exact Option.noConfusion hp
  have hw : Relay.workerV2 parse fetchFn req =
      ({ status := 200, body := r.body,
         headers := [("Content-Type", Relay.jsOrDefault r.contentType "image/jpeg"),
                     ("Access-Control-Allow-Origin", "*"),
                     ("Cache-Control", "public, max-age=86400")] },
       [{ url := u, headers := Relay.v2UpstreamHeaders true }]) := by
    simp [Relay.workerV2, hver, hm, hu, hne, hp, hall, himg, hf, hok]
  rw [hw]
  refine ⟨rfl, rfl, ?_, ?_⟩
  · intro ct hct hne
    simp [Relay.headerGet, Relay.jsOrDefault, hct, hne]
  · rintro (hct | hct) <;> simp [Relay.headerGet, Relay.jsOrDefault, hct]

theorem c6_image_passthrough_witness :
    (Relay.workerV2 Relay.parseDemo
      (fun _ => .resp { status := 200, contentType := some "image/png", body := "PNGDATA" })
      { method := "GET", path := "/",
        urlParam := some "https://64.media.tumblr.com/pic.jpg", headers := [] }).1.status = 200 ∧
    (Relay.workerV2 Relay.parseDemo
      (fun _ => .resp { status := 200, contentType := some "image/png", body := "PNGDATA" })
      { method := "GET", path := "/",
        urlParam := some "https://64.media.tumblr.com/pic.jpg", headers := [] }).1.body = "PNGDATA" ∧
    Relay.headerGet (Relay.workerV2 Relay.parseDemo
      (fun _ => .resp { status := 200, contentType := some "image/png", body := "PNGDATA" })
      { method := "GET", path := "/",
        urlParam := some "https://64.media.tumblr.com/pic.jpg",
        headers := [] }).1.headers "Content-Type" = some "image/png" := by
  have h := c6_image_passthrough Relay.parseDemo
    (fun _ => .resp { status := 200, contentType := some "image/png", body := "PNGDATA" })
    (by decide)
    { method := "GET", path := "/",
      urlParam := some "https://64.media.tumblr.com/pic.jpg", headers := [] }
    "https://64.media.tumblr.com/pic.jpg"
    { hostname := "64.media.tumblr.com", pathname := "/pic.jpg" }
    { status := 200, contentType := some "image/png", body := "PNGDATA" }
    (by decide) rfl rfl (by decide) (by decide) (by decide) (by decide) (by decide)
  exact ⟨h.1, h.2.1, h.2.2.1 "image/png" rfl (by decide)⟩
